import Mathlib

/-
Verification of the network-monitor terminal dashboard (foreground.py).

The development shallowly embeds the NetworkMonitor class:

* A metric record is the pair of the status string and the optional data
  string held in the dicts bandwidth_data .. protocol_data (lines 28-32).
  Python statuses are plain strings, so status stays a String here.
* The curses surface is modelled as a screen of given height and width
  together with the trace of successful writes.  curses addstr and addch
  raise curses.error when the start position lies outside the window; the
  model also treats a write that would overrun the right margin as an
  error (the runs analysed below never overrun, so this only makes the
  model stricter about success, never about failure).  The bottom-right
  corner quirk of addch is not modelled; ignoring it only removes error
  cases, so every error exhibited below is an error of the real code.
* Each drawing routine first computes the list of attempted writes in
  program order, and executing them is a monadic fold that stops at the
  first failing write, exactly as a raised exception stops the Python code.
* Python floor division // is Int.fdiv; a Python slice xs[:k] with a
  possibly negative k is modelled by pySliceList and pySliceStr.
* The collector threads (update_bandwidth, update_latency) are embedded
  twice: as the per-cycle state transform runCycle, and, for the
  concurrency claim, as the list of store states a reader can observe
  during one cycle, one entry per individually-atomic dict assignment.
* For the shutdown claim, the timing of a collector loop is embedded as
  collectorExitTime: the loop checks self.running only at the top of the
  while body, and time.sleep is a fixed uninterruptible delay, so the
  loop exits at the first cycle boundary at or after the stop time.
-/

namespace NetworkMonitor

/-- Status and data of one metric, as stored in the dicts bandwidth_data,
latency_data, stability_data, routing_data, protocol_data
(foreground.py lines 28-32).  The status values the code writes are the
strings "Initializing...", "Updating...", "OK" and "Error: " followed by
the exception text. -/
structure Record where
  status : String
  data : Option String
  deriving DecidableEq, Repr

/-- Initial record value, lines 28-32. -/
def initRecord : Record := { status := "Initializing...", data := none }

/-- The mutable state of the NetworkMonitor instance that the claims are
about: the spinner index and the five metric records. -/
structure MonitorState where
  spinner_idx : Nat
  bandwidth_data : Record
  latency_data : Record
  stability_data : Record
  routing_data : Record
  protocol_data : Record
  deriving DecidableEq, Repr

/-- The state right after __init__ (lines 25-32). -/
def initState : MonitorState :=
  { spinner_idx := 0, bandwidth_data := initRecord, latency_data := initRecord,
    stability_data := initRecord, routing_data := initRecord, protocol_data := initRecord }

/-- The spinner frame list, line 24. -/
def spinnerFrames : List String := ["⠋", "⠙", "⠹", "⠸", "⠼", "⠴", "⠦", "⠧", "⠇", "⠏"]

/-- get_spinner (lines 39-42): returns the current frame and the advanced
index, which wraps modulo the number of frames. -/
def get_spinner (idx : Nat) : String × Nat :=
  (spinnerFrames.getD idx " ", (idx + 1) % spinnerFrames.length)

/-- Color attributes used by the code (lines 19-22, plus the bold title on
line 108 and attribute-free writes). -/
inductive ColorTag where
  | green
  | blue
  | yellow
  | red
  | greenBold
  | default
  deriving DecidableEq, Repr

/-- One attempted terminal write: position, text and color attribute. -/
structure Write where
  row : Int
  col : Int
  text : String
  color : ColorTag
  deriving DecidableEq, Repr

/-- The curses window: its size and the trace of successful writes since
the last clear. -/
structure Screen where
  height : Nat
  width : Nat
  cells : List Write
  deriving DecidableEq, Repr

/-- The message carried by the exception curses raises on a bad write. -/
def cursesError : String := "curses.error"

/-- Model of curses addstr and addch at an explicit position: the write
succeeds and is recorded when the start position is inside the window and
the text fits before the right margin, and otherwise raises curses.error.
Nothing in the Python code catches this exception below run(). -/
def addstr (sc : Screen) (w : Write) : Except String Screen :=
  if 0 ≤ w.row ∧ w.row < (sc.height : Int) ∧ 0 ≤ w.col ∧ w.col < (sc.width : Int) ∧
      w.col + (w.text.length : Int) ≤ (sc.width : Int) then
    Except.ok { sc with cells := sc.cells ++ [w] }
  else
    Except.error cursesError

/-- Executes a list of attempted writes in order, stopping at the first
one that raises, exactly as the exception stops the straight-line Python. -/
def runWrites (sc : Screen) (ws : List Write) : Except String Screen :=
  ws.foldlM addstr sc

/-- Python floor division, the // operator. -/
def pyFloorDiv (a b : Int) : Int := Int.fdiv a b

/-- Python str.split of a character list on the newline character: the
split of the empty text is the singleton list of the empty string, and a
leading newline contributes an empty field. -/
def splitLinesChars : List Char → List String
  | [] => [""]
  | c :: cs =>
    if c = '\n' then "" :: splitLinesChars cs
    else
      match splitLinesChars cs with
      | [] => [String.mk [c]]
      | s :: rest => String.mk (c :: s.data) :: rest

/-- Python data.split of a string on the newline character, as on line 94. -/
def pySplitLines (s : String) : List String := splitLinesChars s.data

/-- Python slice xs[:k] on lists: a negative k counts from the end and
clamps at zero. -/
def pySliceList (l : List String) (k : Int) : List String :=
  if 0 ≤ k then l.take k.toNat else l.take ((l.length : Int) + k).toNat

/-- Python slice s[:k] on strings, character-wise. -/
def pySliceStr (s : String) (k : Int) : String :=
  if 0 ≤ k then String.mk (s.data.take k.toNat)
  else String.mk (s.data.take (((s.length : Int)) + k).toNat)

/-- Python truthiness of data["data"]: None and the empty string are
falsy, every other string is truthy (line 93). -/
def truthy : Option String → Bool
  | none => false
  | some s => s != ""

/-- The status color chosen on line 85: GREEN exactly for the status
string "OK", RED for every other status. -/
def status_color (s : String) : ColorTag :=
  if s = "OK" then ColorTag.green else ColorTag.red

/-- mid_y computed on lines 46 and 102, max_y // 2 (terminal sizes are
nonnegative, so Nat division agrees with Python floor division). -/
def mid_y (H : Nat) : Nat := H / 2

/-- mid_x computed on lines 46 and 102, max_x // 2. -/
def mid_x (W : Nat) : Nat := W / 2

/-- draw_borders (lines 44-57): a horizontal line across the midpoint row,
a vertical line down the midpoint column, and the junction glyph. -/
def draw_borders_writes (H W : Nat) : List Write :=
  ((List.range W).map fun x => ⟨(mid_y H : Int), (x : Int), "─", ColorTag.default⟩)
  ++ ((List.range H).map fun y => ⟨(y : Int), (mid_x W : Int), "│", ColorTag.default⟩)
  ++ [⟨(mid_y H : Int), (mid_x W : Int), "┼", ColorTag.default⟩]

/-- The writes attempted by draw_panel (lines 83-97), given the spinner
glyph already chosen for this call: the header write, the spinner write at
the cursor position left by the header, the bracketed status tag, and then
one write per body line of a truthy data field.  A body line with index i
is attempted only when y + i + 1 < height, the condition on line 96, which
compares the absolute row against the panel height. -/
def draw_panel_writes (sp title : String) (d : Record) (y x height width : Int) : List Write :=
  let header := "=== " ++ title ++ " === "
  let body :=
    if truthy d.data then
      (pySliceList (pySplitLines (d.data.getD "")) (height - 2)).enum.filterMap
        (fun p =>
          if y + (p.1 : Int) + 1 < height then
            some ⟨y + (p.1 : Int) + 1, x, pySliceStr p.2 (width - 2), ColorTag.default⟩
          else none)
    else []
  ⟨y, x, header, ColorTag.blue⟩ ::
  ⟨y, x + (header.length : Int), sp, ColorTag.yellow⟩ ::
  ⟨y, x + (header.length : Int) + (sp.length : Int), "[" ++ d.status ++ "]",
    status_color d.status⟩ ::
  body

/-- draw_panel (lines 83-97): advances the spinner index exactly when the
observed status is the string "Updating..." (line 84), then attempts its
writes in order.  The advanced index is returned even when a write raises,
because get_spinner mutates self.spinner_idx before any drawing. -/
def draw_panel (sc : Screen) (sidx : Nat) (title : String) (d : Record)
    (y x height width : Int) : Nat × Except String Screen :=
  let sp := if d.status = "Updating..." then (get_spinner sidx).1 else " "
  let sidx2 := if d.status = "Updating..." then (get_spinner sidx).2 else sidx
  (sidx2, runWrites sc (draw_panel_writes sp title d y x height width))

/-- A panel rectangle as passed to draw_panel: top row, left column,
height, width. -/
structure Rect where
  y : Int
  x : Int
  height : Int
  width : Int
  deriving DecidableEq, Repr

/-- The bandwidth panel rectangle, line 111. -/
def rect_bandwidth (H W : Nat) : Rect :=
  ⟨2, 1, (mid_y H : Int) - 1, (mid_x W : Int) - 1⟩

/-- The latency panel rectangle, line 112. -/
def rect_latency (H W : Nat) : Rect :=
  ⟨2, (mid_x W : Int) + 1, (mid_y H : Int) - 1, (mid_x W : Int) - 1⟩

/-- The stability panel rectangle, line 113. -/
def rect_stability (H W : Nat) : Rect :=
  ⟨(mid_y H : Int) + 1, 1, (mid_y H : Int) - 1, (mid_x W : Int) - 1⟩

/-- The routing panel rectangle, line 114. -/
def rect_routing (H W : Nat) : Rect :=
  ⟨(mid_y H : Int) + 1, (mid_x W : Int) + 1, (mid_y H : Int) - 1, (mid_x W : Int) - 1⟩

/-- The four panel rectangles of draw_screen, in source order. -/
def panelRects (H W : Nat) : List Rect :=
  [rect_bandwidth H W, rect_latency H W, rect_stability H W, rect_routing H W]

/-- A point lies in a rectangle. -/
def inRect (r : Rect) (i j : Int) : Prop :=
  r.y ≤ i ∧ i < r.y + r.height ∧ r.x ≤ j ∧ j < r.x + r.width

/-- draw_panel applied to a rectangle. -/
def draw_panel_rect (sc : Screen) (sidx : Nat) (title : String) (d : Record)
    (r : Rect) : Nat × Except String Screen :=
  draw_panel sc sidx title d r.y r.x r.height r.width

/-- The centered dashboard title, lines 107-108. -/
def title_str : String := "Network Performance Monitor"

/-- draw_screen (lines 99-120): clear, borders, centered title, the four
panels threading the spinner index, and the timestamp line.  Returns the
final screen trace and spinner index, or the curses error raised by the
first out-of-bounds write. -/
def draw_screen (st : MonitorState) (H W : Nat) (timestamp : String) :
    Except String (Screen × Nat) := do
  let sc : Screen := { height := H, width := W, cells := [] }
  let sc ← runWrites sc (draw_borders_writes H W)
  let sc ← addstr sc ⟨0, pyFloorDiv ((W : Int) - (title_str.length : Int)) 2,
    title_str, ColorTag.greenBold⟩
  let (i1, r1) := draw_panel_rect sc st.spinner_idx "Bandwidth" st.bandwidth_data
    (rect_bandwidth H W)
  let sc ← r1
  let (i2, r2) := draw_panel_rect sc i1 "Latency" st.latency_data (rect_latency H W)
  let sc ← r2
  let (i3, r3) := draw_panel_rect sc i2 "Stability" st.stability_data (rect_stability H W)
  let sc ← r3
  let (i4, r4) := draw_panel_rect sc i3 "Routing" st.routing_data (rect_routing H W)
  let sc ← r4
  let sc ← addstr sc ⟨(H : Int) - 1, 1, "Last update: " ++ timestamp, ColorTag.default⟩
  pure (sc, i4)

/-- One frame of run() (lines 133-137) acting on the monitor state: draw
the screen and keep the advanced spinner index; the records are only read. -/
def frame_step (st : MonitorState) (H W : Nat) (timestamp : String) :
    MonitorState × Except String Screen :=
  match draw_screen st H W timestamp with
  | Except.ok (sc, i) => ({ st with spinner_idx := i }, Except.ok sc)
  | Except.error e => (st, Except.error e)

/-- One iteration of the update_bandwidth or update_latency loop body
(lines 60-69 and 72-81) as a record transform: set status to
"Updating...", invoke the probe, and on success store its standard output
with status "OK", on an exception store only the error status. -/
def runCycle (r : Record) (probe : Except String String) : Record :=
  let r1 := { r with status := "Updating..." }
  match probe with
  | Except.ok out => { r1 with data := some out, status := "OK" }
  | Except.error e => { r1 with status := "Error: " ++ e }

/-- One update_bandwidth cycle on the whole state: only bandwidth_data is
assigned (lines 61, 65, 66, 68). -/
def update_bandwidth_cycle (st : MonitorState) (probe : Except String String) :
    MonitorState :=
  { st with bandwidth_data := runCycle st.bandwidth_data probe }

/-- One update_latency cycle on the whole state: only latency_data is
assigned (lines 73, 77, 78, 80). -/
def update_latency_cycle (st : MonitorState) (probe : Except String String) :
    MonitorState :=
  { st with latency_data := runCycle st.latency_data probe }

/-- The store states a concurrent reader can observe during one collector
cycle.  Each Python dict assignment is individually atomic, but lines
65-66 (and 77-78) assign data and then status as two separate statements,
and the render thread may snapshot the record between any two of them:
after the status assignment of line 61, after the data assignment of line
65, and after the status assignment of line 66; on an exception, after
line 61 and after line 68. -/
def cycle_observable (r : Record) (probe : Except String String) : List Record :=
  let r1 := { r with status := "Updating..." }
  match probe with
  | Except.ok out =>
      [r1, { r1 with data := some out }, { r1 with data := some out, status := "OK" }]
  | Except.error e => [r1, { r1 with status := "Error: " ++ e }]

/-- The bandwidth interval, line 69. -/
def bandwidth_interval : Nat := 300

/-- The latency interval, line 81. -/
def latency_interval : Nat := 5

/-- Timing of one collector loop (lines 59-69, 71-81): the loop checks
self.running only at the top of the while body, and time.sleep(interval)
is a plain uninterruptible delay, so with a fixed probe duration the loop
exits at the first cycle boundary at or after the time the flag is
cleared. -/
def collectorExitTime (probeTime interval stopTime : Nat) : Nat :=
  (probeTime + interval) * ((stopTime + (probeTime + interval) - 1) / (probeTime + interval))

/-- run() on KeyboardInterrupt (lines 138-141) clears the flag and joins
both collector threads, so it returns when the later of the two loops
exits. -/
def run_return_time (bandwidthProbeTime latencyProbeTime stopTime : Nat) : Nat :=
  max (collectorExitTime bandwidthProbeTime bandwidth_interval stopTime)
      (collectorExitTime latencyProbeTime latency_interval stopTime)

/-- Claim C1: the claim states status and data are replaced atomically and
a reader can never observe a mixed record.  The code assigns data (line
65) and then status (line 66) as two separate dict writes, so during a
successful cycle that replaces old data, the record with the new data and
the still-pending status "Updating..." is observable, a mixed state the
claim rules out (it also violates the stated invariant that status
"Updating..." implies unchanged data). -/
theorem C1_update_not_atomic :
    (⟨"Updating...", some "new"⟩ : Record) ∈
      cycle_observable ⟨"OK", some "old"⟩ (Except.ok "new")
    ∧ (⟨"Updating...", some "new"⟩ : Record).data ≠
      (⟨"OK", some "old"⟩ : Record).data := by
  decide

/-- Claim C2: the claim states every out-of-bounds drawing operation is a
clipped no-op that never raises, including on degenerate terminals.  On a
2-row, 80-column terminal the bandwidth panel header write at row 2 is
outside the window, curses raises, and nothing catches it: draw_screen
fails with the curses error instead of clipping. -/
theorem C2_out_of_bounds_raises :
    draw_screen initState 2 80 "2026-01-01 00:00:00" = Except.error cursesError := by
  rfl

/-- Claim C3: the claim states shutdown completes within a bound
independent of the configured sleep intervals.  The sleep is a plain
time.sleep checked only at the top of the loop, so stopping one second
into a cycle makes run() wait out the whole 300-second bandwidth interval,
and for every candidate bound B an interval of B + 2 makes the shutdown
latency exceed B. -/
theorem C3_shutdown_waits_out_sleep :
    run_return_time 0 0 1 = 300
    ∧ ∀ B : Nat, B < collectorExitTime 0 (B + 2) 1 - 1 := by
  constructor
  · rfl
  · intro B
    unfold collectorExitTime
    have h2 : 1 + (0 + (B + 2)) - 1 = 0 + (B + 2) := by omega
    rw [h2, Nat.div_self (by omega), Nat.mul_one]
    omega

/-- Claim C4: the claim states that with data present, up to height - 2
body lines are drawn starting one row below the header.  The row guard on
line 96 compares the absolute row y + i + 1 against the panel height, so
for the stability panel of a 12 by 80 terminal (rectangle y = 7,
height = 5) a three-line data field — exactly height - 2 lines — produces
no body writes at all: only the three header writes appear. -/
theorem C4_body_lines_dropped :
    rect_stability 12 80 = ⟨7, 1, 5, 39⟩
    ∧ (draw_panel ⟨12, 80, []⟩ 0 "Stability" ⟨"OK", some "a\nb\nc"⟩ 7 1 5 39).2 =
      Except.ok ⟨12, 80,
        [⟨7, 1, "=== Stability === ", ColorTag.blue⟩,
         ⟨7, 19, " ", ColorTag.yellow⟩,
         ⟨7, 20, "[OK]", ColorTag.green⟩]⟩
    ∧ (pySplitLines "a\nb\nc").length = 3 ∧ (5 : Int) - 2 = 3 := by
  refine ⟨rfl, rfl, by decide, by decide⟩

/-- Claim C5: for any terminal size with height and width at least 4, the
four panel rectangles of draw_screen are pairwise non-overlapping and lie
within the terminal. -/
theorem C5_layout_disjoint_in_bounds (H W : Nat) (hH : 4 ≤ H) (hW : 4 ≤ W) :
    (∀ r ∈ panelRects H W, ∀ i j : Int, inRect r i j →
        0 ≤ i ∧ i < (H : Int) ∧ 0 ≤ j ∧ j < (W : Int))
    ∧ (panelRects H W).Pairwise
        (fun a b => ∀ i j : Int, ¬(inRect a i j ∧ inRect b i j)) := by
  have sep : ∀ py px ph pw qy qx qh qw : Int,
      (py + ph ≤ qy ∨ qy + qh ≤ py ∨ px + pw ≤ qx ∨ qx + qw ≤ px) →
      ∀ i j : Int, ¬(inRect ⟨py, px, ph, pw⟩ i j ∧ inRect ⟨qy, qx, qh, qw⟩ i j) := by
    intro py px ph pw qy qx qh qw hsep i j hij
    rcases hij with ⟨ha, hb⟩
    dsimp only [inRect] at ha hb
    omega
  constructor
  · intro r hr i j hij
    simp only [panelRects, rect_bandwidth, rect_latency, rect_stability, rect_routing,
      mid_y, mid_x, List.mem_cons, List.not_mem_nil, or_false] at hr
    rcases hr with h | h | h | h <;> subst h <;> dsimp only [inRect] at hij <;> omega
  · have hBL : ∀ i j : Int,
        ¬(inRect (rect_bandwidth H W) i j ∧ inRect (rect_latency H W) i j) :=
      sep _ _ _ _ _ _ _ _ (by omega)
    have hBS : ∀ i j : Int,
        ¬(inRect (rect_bandwidth H W) i j ∧ inRect (rect_stability H W) i j) :=
      sep _ _ _ _ _ _ _ _ (by omega)
    have hBR : ∀ i j : Int,
        ¬(inRect (rect_bandwidth H W) i j ∧ inRect (rect_routing H W) i j) :=
      sep _ _ _ _ _ _ _ _ (by omega)
    have hLS : ∀ i j : Int,
        ¬(inRect (rect_latency H W) i j ∧ inRect (rect_stability H W) i j) :=
      sep _ _ _ _ _ _ _ _ (by omega)
    have hLR : ∀ i j : Int,
        ¬(inRect (rect_latency H W) i j ∧ inRect (rect_routing H W) i j) :=
      sep _ _ _ _ _ _ _ _ (by omega)
    have hSR : ∀ i j : Int,
        ¬(inRect (rect_stability H W) i j ∧ inRect (rect_routing H W) i j) :=
      sep _ _ _ _ _ _ _ _ (by omega)
    refine List.Pairwise.cons ?_ (List.Pairwise.cons ?_ (List.Pairwise.cons ?_
      (List.Pairwise.cons ?_ List.Pairwise.nil)))
    · intro b hb
      rcases List.mem_cons.mp hb with h | hb2
      · subst h; exact hBL
      rcases List.mem_cons.mp hb2 with h | hb3
      · subst h; exact hBS
      rcases List.mem_cons.mp hb3 with h | hb4
      · subst h; exact hBR
      · cases hb4
    · intro b hb
      rcases List.mem_cons.mp hb with h | hb2
      · subst h; exact hLS
      rcases List.mem_cons.mp hb2 with h | hb3
      · subst h; exact hLR
      · cases hb3
    · intro b hb
      rcases List.mem_cons.mp hb with h | hb2
      · subst h; exact hSR
      · cases hb2
    · intro b hb
      cases hb

/-- Witness for claim C5 at the 24 by 80 terminal of the end-to-end
scenario. -/
theorem C5_layout_witness :
    (∀ r ∈ panelRects 24 80, ∀ i j : Int, inRect r i j →
        0 ≤ i ∧ i < ((24 : Nat) : Int) ∧ 0 ≤ j ∧ j < ((80 : Nat) : Int))
    ∧ (panelRects 24 80).Pairwise
        (fun a b => ∀ i j : Int, ¬(inRect a i j ∧ inRect b i j)) :=
  C5_layout_disjoint_in_bounds 24 80 (by decide) (by decide)

/-- Claim C6: after a failed probe cycle the record status is the error
status carrying the failure message and the data field is exactly what it
was before the cycle, for the bandwidth and the latency collector. -/
theorem C6_error_preserves_data (st : MonitorState) (e : String) :
    (update_bandwidth_cycle st (Except.error e)).bandwidth_data.status = "Error: " ++ e
    ∧ (update_bandwidth_cycle st (Except.error e)).bandwidth_data.data =
        st.bandwidth_data.data
    ∧ (update_latency_cycle st (Except.error e)).latency_data.status = "Error: " ++ e
    ∧ (update_latency_cycle st (Except.error e)).latency_data.data =
        st.latency_data.data :=
  ⟨rfl, rfl, rfl, rfl⟩

/-- Claim C7: there are 10 spinner frames, and a draw_panel call advances
the spinner index by exactly one modulo 10 when the observed status is
"Updating...", and leaves it unchanged for any other status. -/
theorem C7_spinner_advance (sc : Screen) (sidx : Nat) (t : String) (d : Record)
    (y x h w : Int) :
    spinnerFrames.length = 10
    ∧ (draw_panel sc sidx t d y x h w).1 =
        (if d.status = "Updating..." then (sidx + 1) % 10 else sidx) := by
  refine ⟨rfl, ?_⟩
  by_cases hs : d.status = "Updating..." <;>
    simp [draw_panel, get_spinner, spinnerFrames, hs]

/-- Counterexample to claim C8: the claim puts status "Initializing..." in
the success color family, but line 85 colors every status other than "OK"
with RED, so an Initializing record draws its status tag red, not green. -/
theorem C8_initializing_drawn_red :
    (draw_panel_rect ⟨24, 80, []⟩ 0 "Bandwidth" ⟨"Initializing...", none⟩
        (rect_bandwidth 24 80)).2 =
      Except.ok ⟨24, 80,
        [⟨2, 1, "=== Bandwidth === ", ColorTag.blue⟩,
         ⟨2, 19, " ", ColorTag.yellow⟩,
         ⟨2, 20, "[Initializing...]", ColorTag.red⟩]⟩
    ∧ ColorTag.red ≠ ColorTag.green := by
  refine ⟨rfl, by decide⟩

/-- Claim C8 as amended: on every panel draw call the status tag is the
third attempted write, colored by status_color, which is the success color
green exactly when the observed status is the string "OK" and the alert
color red for every other status, Initializing and Updating included. -/
theorem C8_status_color_by_ok (sp t : String) (d : Record) (y x h w : Int) :
    List.get? (draw_panel_writes sp t d y x h w) 2 =
      some ⟨y, x + (("=== " ++ t ++ " === ").length : Int) + (sp.length : Int),
        "[" ++ d.status ++ "]", status_color d.status⟩
    ∧ (status_color d.status = ColorTag.green ∨ status_color d.status = ColorTag.red)
    ∧ (status_color d.status = ColorTag.green ↔ d.status = "OK") := by
  refine ⟨rfl, ?_, ?_⟩ <;>
    by_cases hs : d.status = "OK" <;> simp [status_color, hs]

/-- Claim C9: a bandwidth cycle changes no record other than the bandwidth
record, a latency cycle changes no record other than the latency record,
and a render frame leaves all five metric records unchanged. -/
theorem C9_frame_effects (st : MonitorState) (p : Except String String)
    (H W : Nat) (ts : String) :
    (update_bandwidth_cycle st p).latency_data = st.latency_data
    ∧ (update_bandwidth_cycle st p).stability_data = st.stability_data
    ∧ (update_bandwidth_cycle st p).routing_data = st.routing_data
    ∧ (update_bandwidth_cycle st p).protocol_data = st.protocol_data
    ∧ (update_latency_cycle st p).bandwidth_data = st.bandwidth_data
    ∧ (update_latency_cycle st p).stability_data = st.stability_data
    ∧ (update_latency_cycle st p).routing_data = st.routing_data
    ∧ (update_latency_cycle st p).protocol_data = st.protocol_data
    ∧ (frame_step st H W ts).1.bandwidth_data = st.bandwidth_data
    ∧ (frame_step st H W ts).1.latency_data = st.latency_data
    ∧ (frame_step st H W ts).1.stability_data = st.stability_data
    ∧ (frame_step st H W ts).1.routing_data = st.routing_data
    ∧ (frame_step st H W ts).1.protocol_data = st.protocol_data := by
  refine ⟨rfl, rfl, rfl, rfl, rfl, rfl, rfl, rfl, ?_, ?_, ?_, ?_, ?_⟩ <;>
    · unfold frame_step
      split <;> rfl

/-- Claim C10: a record whose data is the empty string draws exactly as a
record with absent data — the empty string is falsy on line 93 — so the
panel shows only its three header writes and no body lines. -/
theorem C10_empty_data_no_body (sc : Screen) (sidx : Nat) (t s : String)
    (y x h w : Int) :
    draw_panel sc sidx t ⟨s, some ""⟩ y x h w = draw_panel sc sidx t ⟨s, none⟩ y x h w
    ∧ (draw_panel_writes " " t ⟨s, some ""⟩ y x h w).length = 3 :=
  ⟨rfl, rfl⟩

end NetworkMonitor
